import Mathlib

/-!
Verification development for the Business Finder backend (src/app.py).

The remote world is modelled by an oracle env : Nat -> TransportOutcome
giving the outcome of the n-th outbound HTTP call made during one handler
invocation.  Every function that performs remote calls threads a cursor
(the index of the next call) and records a trace of externally visible
Event values: outbound calls (with their parameter maps) and sleeps (with
their durations in seconds, as rationals).  Python dict lookups with
defaults (d.get(k, v)) are modelled by Option fields with getD.
-/

namespace BizFinder

/-- Configuration string loaded from the environment; its concrete value is
irrelevant to every property below. -/
def GOOGLE_PLACES_API_KEY : String := "PLACES-KEY"

/-- Endpoint of the nearby-search API. -/
def NEARBY_SEARCH_URL : String := "https://maps.googleapis.com/maps/api/place/nearbysearch/json"

/-- Endpoint of the place-details API. -/
def PLACE_DETAILS_URL : String := "https://maps.googleapis.com/maps/api/place/details/json"

/-- Delay between requests in seconds (app.py REQUEST_DELAY = 0.1), given
as the reduced fraction 1/10 so that it evaluates by kernel reduction. -/
def REQUEST_DELAY : ℚ := ⟨1, 10, by decide, Nat.coprime_one_left 10⟩

/-- Required delay before using a next_page_token (app.py PAGE_TOKEN_DELAY = 2.0). -/
def PAGE_TOKEN_DELAY : ℚ := 2

/-- Default retry ceiling (app.py MAX_RETRIES = 3). -/
def MAX_RETRIES : Nat := 3

/-- Base of the exponential backoff (app.py BACKOFF_FACTOR = 2). -/
def BACKOFF_FACTOR : ℚ := 2

/-- One entry of a nearby-search results page; only its place_id is ever
read by the code (place.get('place_id')). -/
structure PlaceEntry where
  place_id : Option String
deriving DecidableEq, Repr

/-- A place-details record as returned by the details endpoint; every field
is optional since the code reads each one with dict.get and a default. -/
structure PlaceDetails where
  name : Option String
  formatted_address : Option String
  formatted_phone_number : Option String
  website : Option String
  user_ratings_total : Option Int
  rating : Option ℚ
  place_id : Option String
deriving DecidableEq, Repr

/-- Details record with every field absent (the default of data.get('result', {})). -/
def emptyDetails : PlaceDetails := ⟨none, none, none, none, none, none, none⟩

/-- Parsed JSON body of a remote response; the union of the fields the code
reads from search responses and from details responses, each optional. -/
structure ApiData where
  status : Option String
  error_message : Option String
  results : Option (List PlaceEntry)
  next_page_token : Option String
  result : Option PlaceDetails
deriving DecidableEq, Repr

/-- Transport-level outcome of one HTTP call: a parsed response body, a
requests.exceptions.Timeout, or any other requests.exceptions.RequestException. -/
inductive TransportOutcome where
  | response (data : ApiData)
  | timeout
  | netError (msg : String)
deriving DecidableEq, Repr

/-- A query-parameter value: a string, an integer, or the location pair that
the code formats as f-string lat,lng. -/
inductive PVal where
  | s (v : String)
  | i (v : Int)
  | loc (lat lng : ℚ)
deriving DecidableEq, Repr

/-- A parameter map, in the insertion order of the Python dict literal. -/
abbrev Params := List (String × PVal)

/-- Externally visible events of one handler invocation. -/
inductive Event where
  | call (url : String) (params : Params)
  | sleep (seconds : ℚ)
deriving DecidableEq, Repr

/-- Errors returned by make_request_with_retry, one constructor per return
site of the Python function; render gives the exact string it returns. -/
inductive ReqError where
  | requestDenied (msg : String)
  | invalidRequest (msg : String)
  | apiError (status : String)
  | timedOut
  | networkError (msg : String)
  | maxRetriesExceeded
deriving DecidableEq, Repr

/-- Decidable equality of tagged results, used to evaluate the concrete
instances below. -/
instance instDecEqExcept {ε α : Type} [DecidableEq ε] [DecidableEq α] :
    DecidableEq (Except ε α)
  | .ok x, .ok y =>
    if h : x = y then .isTrue (congrArg Except.ok h)
    else .isFalse (fun hc => h (Except.ok.inj hc))
  | .error x, .error y =>
    if h : x = y then .isTrue (congrArg Except.error h)
    else .isFalse (fun hc => h (Except.error.inj hc))
  | .ok _, .error _ => .isFalse (fun hc => Except.noConfusion hc)
  | .error _, .ok _ => .isFalse (fun hc => Except.noConfusion hc)

/-- Exact error string returned by the corresponding Python return site. -/
def ReqError.render : ReqError → String
  | .requestDenied m => "Request denied: " ++ m
  | .invalidRequest m => "Invalid request: " ++ m
  | .apiError st => "API error: " ++ st
  | .timedOut => "Request timed out"
  | .networkError m => "Network error: " ++ m
  | .maxRetriesExceeded => "Max retries exceeded"

/-- Modelled from the spec: the error taxonomy of section 7. -/
inductive ErrKind where
  | rateLimited
  | timeout
  | networkError
  | invalidRequest
  | denied
  | unknownApiError
deriving DecidableEq, Repr

/-- Modelled from the spec: which taxonomy kind each terminal error of the
executor belongs to. -/
def ReqError.kind : ReqError → ErrKind
  | .requestDenied _ => .denied
  | .invalidRequest _ => .invalidRequest
  | .apiError _ => .unknownApiError
  | .timedOut => .timeout
  | .networkError _ => .networkError
  | .maxRetriesExceeded => .unknownApiError

/-- Body of the retry loop of make_request_with_retry.  fuel is the number
of loop iterations still permitted; the function is always entered with
fuel = max_retries - attempt, so that fuel = 0 corresponds to the loop
having exhausted range(max_retries), where the Python function returns
(None, "Max retries exceeded").  The test attempt + 1 < max_retries is the
Python test attempt < max_retries - 1 on exact integers. -/
def retryFrom (url : String) (params : Params) (env : Nat → TransportOutcome)
    (max_retries : Nat) :
    Nat → Nat → Nat → Except ReqError ApiData × Nat × List Event
  | 0, _, k => (Except.error ReqError.maxRetriesExceeded, k, [])
  | fuel + 1, attempt, k =>
    match env k with
    | TransportOutcome.response data =>
      let status := data.status.getD "UNKNOWN"
      if status = "OK" ∨ status = "ZERO_RESULTS" then
        (Except.ok data, k + 1, [Event.call url params])
      else if status = "OVER_QUERY_LIMIT" then
        let r := retryFrom url params env max_retries fuel (attempt + 1) (k + 1)
        (r.1, r.2.1, Event.call url params :: Event.sleep (BACKOFF_FACTOR ^ attempt) :: r.2.2)
      else if status = "REQUEST_DENIED" then
        (Except.error (ReqError.requestDenied (data.error_message.getD "Check API key")),
          k + 1, [Event.call url params])
      else if status = "INVALID_REQUEST" then
        (Except.error (ReqError.invalidRequest (data.error_message.getD "Check parameters")),
          k + 1, [Event.call url params])
      else
        (Except.error (ReqError.apiError status), k + 1, [Event.call url params])
    | TransportOutcome.timeout =>
      if attempt + 1 < max_retries then
        let r := retryFrom url params env max_retries fuel (attempt + 1) (k + 1)
        (r.1, r.2.1, Event.call url params :: Event.sleep (BACKOFF_FACTOR ^ attempt) :: r.2.2)
      else
        (Except.error ReqError.timedOut, k + 1, [Event.call url params])
    | TransportOutcome.netError msg =>
      if attempt + 1 < max_retries then
        let r := retryFrom url params env max_retries fuel (attempt + 1) (k + 1)
        (r.1, r.2.1, Event.call url params :: Event.sleep (BACKOFF_FACTOR ^ attempt) :: r.2.2)
      else
        (Except.error (ReqError.networkError msg), k + 1, [Event.call url params])

/-- make_request_with_retry of app.py: run the retry loop from attempt 0,
consuming outcomes of env starting at cursor k.  Returns the parsed data or
the error, the new cursor, and the trace of calls and sleeps. -/
def make_request_with_retry (url : String) (params : Params)
    (env : Nat → TransportOutcome) (k : Nat) (max_retries : Nat) :
    Except ReqError ApiData × Nat × List Event :=
  retryFrom url params env max_retries max_retries 0 k

/-- Does the character list start with pat? -/
def subAt : List Char → List Char → Bool
  | _, [] => true
  | [], _ :: _ => false
  | c :: cs, p :: ps => (c = p) && subAt cs ps

/-- Does the character list contain pat as a contiguous run? -/
def hasSub (pat : List Char) : List Char → Bool
  | [] => pat.isEmpty
  | c :: cs => subAt (c :: cs) pat || hasSub pat cs

/-- Substring containment, the Python test pat in s. -/
def strContains (s pat : String) : Bool :=
  hasSub pat.data s.data

/-- Python str.lower, character by character (ASCII-faithful). -/
def lowerStr (s : String) : String :=
  String.mk (s.data.map Char.toLower)

/-- Python str.strip: drop leading and trailing whitespace. -/
def trimStr (s : String) : String :=
  String.mk
    (((s.data.dropWhile Char.isWhitespace).reverse.dropWhile Char.isWhitespace).reverse)

/-- filter_place of app.py. -/
def filter_place (place_details : PlaceDetails) (min_reviews : Int) : Bool :=
  let reviews := place_details.user_ratings_total.getD 0
  let website := place_details.website.getD ""
  if reviews < min_reviews then false
  else if website = "" then true
  else if strContains (lowerStr website) "facebook.com" then true
  else false

/-- Parameter dict of the first page of nearby_search. -/
def initialSearchParams (query : String) (lat lng : ℚ) (radius_meters : Int) : Params :=
  [("key", PVal.s GOOGLE_PLACES_API_KEY),
   ("location", PVal.loc lat lng),
   ("radius", PVal.i radius_meters),
   ("keyword", PVal.s query)]

/-- Parameter dict of every subsequent page of nearby_search. -/
def pageTokenParams (tok : String) : Params :=
  [("key", PVal.s GOOGLE_PLACES_API_KEY),
   ("pagetoken", PVal.s tok)]

/-- Body of the while-True loop of nearby_search.  fuel bounds the number
of pages the walk may still visit; none means the walk did not terminate
within fuel iterations (the Python loop has no bound of its own).  The
Python test if not next_page_token treats both a missing token and an
empty-string token as absent, hence the getD to the empty string. -/
def nearbyLoop (env : Nat → TransportOutcome) :
    Nat → Params → Nat → List PlaceEntry →
    Option (Except ReqError (List PlaceEntry) × Nat × List Event)
  | 0, _, _, _ => none
  | fuel + 1, params, k, all_results =>
    let r := make_request_with_retry NEARBY_SEARCH_URL params env k MAX_RETRIES
    match r.1 with
    | Except.error e => some (Except.error e, r.2.1, r.2.2)
    | Except.ok data =>
      let acc := all_results ++ data.results.getD []
      let next_page_token := data.next_page_token.getD ""
      if next_page_token = "" then some (Except.ok acc, r.2.1, r.2.2)
      else
        match nearbyLoop env fuel (pageTokenParams next_page_token) r.2.1 acc with
        | none => none
        | some rec_r =>
          some (rec_r.1, rec_r.2.1,
            r.2.2 ++ Event.sleep PAGE_TOKEN_DELAY :: Event.sleep REQUEST_DELAY :: rec_r.2.2)

/-- nearby_search of app.py, starting at cursor k with page budget fuel. -/
def nearby_search (query : String) (lat lng : ℚ) (radius_meters : Int)
    (env : Nat → TransportOutcome) (k fuel : Nat) :
    Option (Except ReqError (List PlaceEntry) × Nat × List Event) :=
  nearbyLoop env fuel (initialSearchParams query lat lng radius_meters) k []

/-- Field list requested by get_place_details. -/
def DETAILS_FIELDS : String :=
  "name,formatted_address,formatted_phone_number,website,user_ratings_total,rating,place_id"

/-- Parameter dict of a details call. -/
def detailsParams (place_id : String) : Params :=
  [("key", PVal.s GOOGLE_PLACES_API_KEY),
   ("place_id", PVal.s place_id),
   ("fields", PVal.s DETAILS_FIELDS)]

/-- get_place_details of app.py. -/
def get_place_details (place_id : String) (env : Nat → TransportOutcome) (k : Nat) :
    Except ReqError PlaceDetails × Nat × List Event :=
  let r := make_request_with_retry PLACE_DETAILS_URL (detailsParams place_id) env k MAX_RETRIES
  match r.1 with
  | Except.error e => (Except.error e, r.2.1, r.2.2)
  | Except.ok data => (Except.ok (data.result.getD emptyDetails), r.2.1, r.2.2)

/-- One element of the JSON results array built by the search handler. -/
structure ResultEntry where
  name : String
  address : String
  phone : String
  website : String
  reviews : Int
  rating : ℚ
  place_id : String
deriving DecidableEq, Repr

/-- The dict literal the handler appends to filtered_results for a place
that passes the filter; fallback_place_id is the place_id of the search
entry, used when the details record lacks one. -/
def mkResultEntry (fallback_place_id : String) (details : PlaceDetails) : ResultEntry :=
  { name := details.name.getD ""
    address := details.formatted_address.getD ""
    phone := details.formatted_phone_number.getD ""
    website := details.website.getD ""
    reviews := details.user_ratings_total.getD 0
    rating := details.rating.getD 0
    place_id := details.place_id.getD fallback_place_id }

/-- The for-place-in-nearby_results loop of the search handler: courtesy
delay, details fetch, skip on per-item error, filter, accumulate.  The
Python test if not place_id treats a missing and an empty place_id alike. -/
def enrichLoop (min_reviews : Int) (env : Nat → TransportOutcome) :
    List PlaceEntry → Nat → List ResultEntry → List ResultEntry × Nat × List Event
  | [], k, filtered_results => (filtered_results, k, [])
  | place :: rest, k, filtered_results =>
    let place_id := place.place_id.getD ""
    if place_id = "" then enrichLoop min_reviews env rest k filtered_results
    else
      let d := get_place_details place_id env k
      match d.1 with
      | Except.error _ =>
        let r := enrichLoop min_reviews env rest d.2.1 filtered_results
        (r.1, r.2.1, Event.sleep REQUEST_DELAY :: d.2.2 ++ r.2.2)
      | Except.ok details =>
        let acc :=
          if filter_place details min_reviews then
            filtered_results ++ [mkResultEntry place_id details]
          else filtered_results
        let r := enrichLoop min_reviews env rest d.2.1 acc
        (r.1, r.2.1, Event.sleep REQUEST_DELAY :: d.2.2 ++ r.2.2)

/-- Body of the JSON response of a completed handler invocation; fields the
handler omits on a given path are none. -/
structure RespBody where
  results : List ResultEntry
  message : Option String
  total_found : Option Nat
  filtered_count : Option Nat
deriving DecidableEq, Repr

/-- HTTP response of the handler: 200 with a body, 400, or 500. -/
inductive HttpResponse where
  | ok (body : RespBody)
  | clientError (msg : String)
  | serverError (msg : String)
deriving DecidableEq, Repr

/-- Parsed JSON body of an incoming request; every field may be absent. -/
structure ReqBody where
  query : Option String
  lat : Option ℚ
  lng : Option ℚ
  radius_meters : Option Int
  min_reviews : Option Int
deriving DecidableEq, Repr

/-- The search handler of app.py (POST /search), with the remote world env
and a page budget fuel for the pagination loop.  Returns the response and
the full event trace; none only when the pagination loop outruns fuel. -/
def search (body : ReqBody) (env : Nat → TransportOutcome) (fuel : Nat) :
    Option (HttpResponse × List Event) :=
  let query := trimStr (body.query.getD "")
  let radius_requested := body.radius_meters.getD 5000
  let min_reviews := body.min_reviews.getD 0
  if query = "" then some (HttpResponse.clientError "Business query is required", [])
  else
    match body.lat, body.lng with
    | none, _ => some (HttpResponse.clientError "Location coordinates are required", [])
    | some _, none => some (HttpResponse.clientError "Location coordinates are required", [])
    | some lat, some lng =>
      let radius_meters := min radius_requested 50000
      match nearby_search query lat lng radius_meters env 0 fuel with
      | none => none
      | some (Except.error e, _, ev) => some (HttpResponse.serverError e.render, ev)
      | some (Except.ok nearby_results, k, ev) =>
        if nearby_results = [] then
          some (HttpResponse.ok
            { results := [], message := some "No results found",
              total_found := none, filtered_count := none }, ev)
        else
          let r := enrichLoop min_reviews env nearby_results k []
          some (HttpResponse.ok
            { results := r.1, message := none,
              total_found := some nearby_results.length,
              filtered_count := some r.1.length }, ev ++ r.2.2)

/-- Response part of a handler run. -/
def respOf (r : Option (HttpResponse × List Event)) : Option HttpResponse :=
  r.map Prod.fst

/-- Trace part of a handler run. -/
def traceOf (r : Option (HttpResponse × List Event)) : Option (List Event) :=
  r.map Prod.snd

/-- Is the event an outbound call? -/
def isCall : Event → Bool
  | .call _ _ => true
  | .sleep _ => false

/-- Is the event a call to the details endpoint? -/
def isDetailCall : Event → Bool
  | .call url _ => url = PLACE_DETAILS_URL
  | .sleep _ => false

/-- Number of outbound calls in a trace. -/
def callCount (t : List Event) : Nat := (t.filter isCall).length

/-- Concrete environment built from a finite list of outcomes; calls past
the end of the list time out. -/
def envOfList (outs : List TransportOutcome) : Nat → TransportOutcome :=
  fun n => (outs.get? n).getD TransportOutcome.timeout

/-- Modelled from the spec: one successful search page, its results and its
optional next-page token (section 4.2). -/
structure Page where
  results : List PlaceEntry
  token : Option String
deriving DecidableEq, Repr

/-- Token of a page as the code reads it: a missing token is empty. -/
def tokenStr (p : Page) : String := p.token.getD ""

/-- Response body of a successful page. -/
def pageData (p : Page) : ApiData :=
  { status := some "OK", error_message := none, results := some p.results,
    next_page_token := p.token, result := none }

/-- Modelled from the spec: a well-formed finite page sequence as in the
pagination property of section 8; every page before the last carries a
token and the last does not. -/
def pagesWF : List Page → Bool
  | [] => false
  | [p] => decide (tokenStr p = "")
  | p :: q :: rest => decide (tokenStr p ≠ "") && pagesWF (q :: rest)

/-- Modelled from the spec: the event trace a fully successful page walk
must produce, starting from the given first-page parameters: one call per
page, the mandatory 2.0s token delay plus the 0.1s courtesy delay between
consecutive calls, and every call after the first carrying only the
credential and the pagetoken (sections 4.2 and 8). -/
def specPagedTrace : Params → List Page → List Event
  | _, [] => []
  | params, [_] => [Event.call NEARBY_SEARCH_URL params]
  | params, p :: q :: rest =>
    Event.call NEARBY_SEARCH_URL params :: Event.sleep PAGE_TOKEN_DELAY ::
      Event.sleep REQUEST_DELAY :: specPagedTrace (pageTokenParams (tokenStr p)) (q :: rest)

/-- Modelled from the spec: a trace obeys the backoff discipline of
sections 4.1 and 8, counting attempts from index a: calls alternate with
single sleeps and the sleep following the attempt of zero-based index a + i
lasts exactly BACKOFF_FACTOR ^ (a + i) seconds. -/
def retryTraceOK : Nat → List Event → Bool
  | _, [] => true
  | _, [Event.call _ _] => true
  | a, Event.call _ _ :: Event.sleep q :: rest =>
    decide (q = BACKOFF_FACTOR ^ a) && retryTraceOK (a + 1) rest
  | _, _ => false

/-- Details record with a given review count and website, all other fields
absent; used by the concrete instances below. -/
def detailRec (reviews : Int) (website : Option String) : PlaceDetails :=
  { emptyDetails with user_ratings_total := some reviews, website := website }

/-- Search entry with place_id p1. -/
def entryP1 : PlaceEntry := ⟨some "p1"⟩

/-- Search entry with place_id p2. -/
def entryP2 : PlaceEntry := ⟨some "p2"⟩

/-- Search entry with no place_id. -/
def entryNoId : PlaceEntry := ⟨none⟩

/-- Successful search-page response body. -/
def okPage (es : List PlaceEntry) (tok : Option String) : ApiData :=
  { status := some "OK", error_message := none, results := some es,
    next_page_token := tok, result := none }

/-- Successful details response body. -/
def detOK (d : PlaceDetails) : ApiData :=
  { status := some "OK", error_message := none, results := none,
    next_page_token := none, result := some d }

/-- INVALID_REQUEST response body. -/
def invalidResp : ApiData :=
  { status := some "INVALID_REQUEST", error_message := some "nope", results := none,
    next_page_token := none, result := none }

/-- REQUEST_DENIED response body. -/
def deniedResp : ApiData :=
  { status := some "REQUEST_DENIED", error_message := some "bad key", results := none,
    next_page_token := none, result := none }

/-- Details of the successful place of the end-to-end scenarios: 25 reviews
and no website. -/
def d2 : PlaceDetails := { emptyDetails with user_ratings_total := some 25, place_id := some "p2" }

/-- Environment of the end-to-end scenario of the spec (section 8): one
search page with two references, a failing details call for p1 and a
successful one for p2. -/
def envC5 : Nat → TransportOutcome :=
  envOfList [TransportOutcome.response (okPage [entryP1, entryP2] none),
             TransportOutcome.response invalidResp,
             TransportOutcome.response (detOK d2)]

/-- Request of the end-to-end scenario: bakery at (40, -74), radius 5000,
at least 20 reviews. -/
def bodyC5 : ReqBody := ⟨some "bakery", some 40, some (-74), some 5000, some 20⟩

/-- Environment with one search page carrying an id-less entry and p2,
then a successful details call for p2. -/
def envC10 : Nat → TransportOutcome :=
  envOfList [TransportOutcome.response (okPage [entryNoId, entryP2] none),
             TransportOutcome.response (detOK d2)]

/-- Request used with envC10. -/
def bodyC10 : ReqBody := ⟨some "cafe", some 0, some 0, some 1000, some 0⟩

/-- Full event trace of search on bodyC10 and envC10. -/
def tr10 : List Event :=
  [Event.call NEARBY_SEARCH_URL (initialSearchParams "cafe" 0 0 1000),
   Event.sleep REQUEST_DELAY,
   Event.call PLACE_DETAILS_URL (detailsParams "p2")]

/-- Response body of search on bodyC10 and envC10. -/
def rb10 : RespBody := ⟨[mkResultEntry "p2" d2], none, some 2, some 1⟩

/-- Environment with a single empty OK page. -/
def envOnePage : Nat → TransportOutcome :=
  envOfList [TransportOutcome.response (okPage [] none)]

/-- Environment whose first call is denied. -/
def envDenied : Nat → TransportOutcome :=
  envOfList [TransportOutcome.response deniedResp]

/-- Plain valid request with the default radius. -/
def bodyPlain : ReqBody := ⟨some "cafe", some 0, some 0, some 5000, some 0⟩

/-- Valid request with a negative radius. -/
def bodyNeg : ReqBody := ⟨some "cafe", some 0, some 0, some (-5), some 0⟩

/-- Valid request with a radius of 100000. -/
def body100k : ReqBody := ⟨some "cafe", some 0, some 0, some 100000, some 0⟩

/-- Request without a query string. -/
def bodyNoQuery : ReqBody := ⟨none, some 0, some 0, none, none⟩

/-- A three-page walk: pages one and two carry tokens, page three does not. -/
def pages3 : List Page :=
  [⟨[entryP1], some "tok-a"⟩, ⟨[entryP2], some "tok-b"⟩, ⟨[], none⟩]

/-- Environment serving the three pages in order. -/
def env3 : Nat → TransportOutcome :=
  envOfList (pages3.map (fun p => TransportOutcome.response (pageData p)))

/-- Default page used by getD in page-environment hypotheses. -/
def defaultPage : Page := ⟨[], none⟩

theorem callCount_nil : callCount [] = 0 := rfl

theorem callCount_call (u : String) (p : Params) (t : List Event) :
    callCount (Event.call u p :: t) = callCount t + 1 := by
  simp [callCount, isCall, List.filter]

theorem callCount_sleep (q : ℚ) (t : List Event) :
    callCount (Event.sleep q :: t) = callCount t := by
  simp [callCount, isCall, List.filter]

theorem retryFrom_response_ok (url : String) (params : Params) (env : Nat → TransportOutcome)
    (m fuel a k : Nat) (data : ApiData) (h : env k = TransportOutcome.response data)
    (hst : data.status.getD "UNKNOWN" = "OK" ∨ data.status.getD "UNKNOWN" = "ZERO_RESULTS") :
    retryFrom url params env m (fuel + 1) a k =
      (Except.ok data, k + 1, [Event.call url params]) := by
  simp only [retryFrom, h]
  rw [if_pos hst]

theorem retryFrom_response_oql (url : String) (params : Params) (env : Nat → TransportOutcome)
    (m fuel a k : Nat) (data : ApiData) (h : env k = TransportOutcome.response data)
    (hst : data.status.getD "UNKNOWN" = "OVER_QUERY_LIMIT") :
    retryFrom url params env m (fuel + 1) a k =
      ((retryFrom url params env m fuel (a + 1) (k + 1)).1,
       (retryFrom url params env m fuel (a + 1) (k + 1)).2.1,
       Event.call url params :: Event.sleep (BACKOFF_FACTOR ^ a) ::
         (retryFrom url params env m fuel (a + 1) (k + 1)).2.2) := by
  simp [retryFrom, h, hst]

theorem retryFrom_response_denied (url : String) (params : Params) (env : Nat → TransportOutcome)
    (m fuel a k : Nat) (data : ApiData) (h : env k = TransportOutcome.response data)
    (hst : data.status.getD "UNKNOWN" = "REQUEST_DENIED") :
    retryFrom url params env m (fuel + 1) a k =
      (Except.error (ReqError.requestDenied (data.error_message.getD "Check API key")),
        k + 1, [Event.call url params]) := by
  simp [retryFrom, h, hst]

theorem retryFrom_response_invalid (url : String) (params : Params) (env : Nat → TransportOutcome)
    (m fuel a k : Nat) (data : ApiData) (h : env k = TransportOutcome.response data)
    (hst : data.status.getD "UNKNOWN" = "INVALID_REQUEST") :
    retryFrom url params env m (fuel + 1) a k =
      (Except.error (ReqError.invalidRequest (data.error_message.getD "Check parameters")),
        k + 1, [Event.call url params]) := by
  simp [retryFrom, h, hst]

theorem retryFrom_response_other (url : String) (params : Params) (env : Nat → TransportOutcome)
    (m fuel a k : Nat) (data : ApiData) (h : env k = TransportOutcome.response data)
    (h1 : data.status.getD "UNKNOWN" ≠ "OK") (h2 : data.status.getD "UNKNOWN" ≠ "ZERO_RESULTS")
    (h3 : data.status.getD "UNKNOWN" ≠ "OVER_QUERY_LIMIT")
    (h4 : data.status.getD "UNKNOWN" ≠ "REQUEST_DENIED")
    (h5 : data.status.getD "UNKNOWN" ≠ "INVALID_REQUEST") :
    retryFrom url params env m (fuel + 1) a k =
      (Except.error (ReqError.apiError (data.status.getD "UNKNOWN")),
        k + 1, [Event.call url params]) := by
  simp [retryFrom, h, h1, h2, h3, h4, h5]

theorem retryFrom_timeout_mid (url : String) (params : Params) (env : Nat → TransportOutcome)
    (m fuel a k : Nat) (h : env k = TransportOutcome.timeout) (ha : a + 1 < m) :
    retryFrom url params env m (fuel + 1) a k =
      ((retryFrom url params env m fuel (a + 1) (k + 1)).1,
       (retryFrom url params env m fuel (a + 1) (k + 1)).2.1,
       Event.call url params :: Event.sleep (BACKOFF_FACTOR ^ a) ::
         (retryFrom url params env m fuel (a + 1) (k + 1)).2.2) := by
  simp only [retryFrom, h]
  rw [if_pos ha]

theorem retryFrom_timeout_last (url : String) (params : Params) (env : Nat → TransportOutcome)
    (m fuel a k : Nat) (h : env k = TransportOutcome.timeout) (ha : ¬ a + 1 < m) :
    retryFrom url params env m (fuel + 1) a k =
      (Except.error ReqError.timedOut, k + 1, [Event.call url params]) := by
  simp only [retryFrom, h]
  rw [if_neg ha]

theorem retryFrom_netError_mid (url : String) (params : Params) (env : Nat → TransportOutcome)
    (m fuel a k : Nat) (s : String) (h : env k = TransportOutcome.netError s) (ha : a + 1 < m) :
    retryFrom url params env m (fuel + 1) a k =
      ((retryFrom url params env m fuel (a + 1) (k + 1)).1,
       (retryFrom url params env m fuel (a + 1) (k + 1)).2.1,
       Event.call url params :: Event.sleep (BACKOFF_FACTOR ^ a) ::
         (retryFrom url params env m fuel (a + 1) (k + 1)).2.2) := by
  simp only [retryFrom, h]
  rw [if_pos ha]

theorem retryFrom_netError_last (url : String) (params : Params) (env : Nat → TransportOutcome)
    (m fuel a k : Nat) (s : String) (h : env k = TransportOutcome.netError s) (ha : ¬ a + 1 < m) :
    retryFrom url params env m (fuel + 1) a k =
      (Except.error (ReqError.networkError s), k + 1, [Event.call url params]) := by
  simp only [retryFrom, h]
  rw [if_neg ha]

theorem retryFrom_trace_bound (url : String) (params : Params) (env : Nat → TransportOutcome)
    (m : Nat) : ∀ fuel a k,
    callCount (retryFrom url params env m fuel a k).2.2 ≤ fuel ∧
    retryTraceOK a (retryFrom url params env m fuel a k).2.2 = true := by
  intro fuel
  induction fuel with
  | zero =>
    intro a k
    exact ⟨by simp [retryFrom, callCount], by simp [retryFrom, retryTraceOK]⟩
  | succ f ih =>
    intro a k
    cases henv : env k with
    | response data =>
      by_cases h1 : data.status.getD "UNKNOWN" = "OK" ∨ data.status.getD "UNKNOWN" = "ZERO_RESULTS"
      · rw [retryFrom_response_ok url params env m f a k data henv h1]
        exact ⟨by simp [callCount, isCall, List.filter], by simp [retryTraceOK]⟩
      · push_neg at h1
        by_cases h2 : data.status.getD "UNKNOWN" = "OVER_QUERY_LIMIT"
        · rw [retryFrom_response_oql url params env m f a k data henv h2]
          obtain ⟨ihc, iht⟩ := ih (a + 1) (k + 1)
          refine ⟨?_, ?_⟩
          · simp only [callCount_call, callCount_sleep]; omega
          · simp [retryTraceOK, iht]
        · by_cases h3 : data.status.getD "UNKNOWN" = "REQUEST_DENIED"
          · rw [retryFrom_response_denied url params env m f a k data henv h3]
            exact ⟨by simp [callCount, isCall, List.filter], by simp [retryTraceOK]⟩
          · by_cases h4 : data.status.getD "UNKNOWN" = "INVALID_REQUEST"
            · rw [retryFrom_response_invalid url params env m f a k data henv h4]
              exact ⟨by simp [callCount, isCall, List.filter], by simp [retryTraceOK]⟩
            · rw [retryFrom_response_other url params env m f a k data henv h1.1 h1.2 h2 h3 h4]
              exact ⟨by simp [callCount, isCall, List.filter], by simp [retryTraceOK]⟩
    | timeout =>
      by_cases ha : a + 1 < m
      · rw [retryFrom_timeout_mid url params env m f a k henv ha]
        obtain ⟨ihc, iht⟩ := ih (a + 1) (k + 1)
        refine ⟨?_, ?_⟩
        · simp only [callCount_call, callCount_sleep]; omega
        · simp [retryTraceOK, iht]
      · rw [retryFrom_timeout_last url params env m f a k henv ha]
        exact ⟨by simp [callCount, isCall, List.filter], by simp [retryTraceOK]⟩
    | netError s =>
      by_cases ha : a + 1 < m
      · rw [retryFrom_netError_mid url params env m f a k s henv ha]
        obtain ⟨ihc, iht⟩ := ih (a + 1) (k + 1)
        refine ⟨?_, ?_⟩
        · simp only [callCount_call, callCount_sleep]; omega
        · simp [retryTraceOK, iht]
      · rw [retryFrom_netError_last url params env m f a k s henv ha]
        exact ⟨by simp [callCount, isCall, List.filter], by simp [retryTraceOK]⟩

theorem retryFrom_trace_head (url : String) (params : Params) (env : Nat → TransportOutcome)
    (m fuel a k : Nat) :
    ∃ rest, (retryFrom url params env m (fuel + 1) a k).2.2 =
      Event.call url params :: rest := by
  cases henv : env k with
  | response data =>
    by_cases h1 : data.status.getD "UNKNOWN" = "OK" ∨ data.status.getD "UNKNOWN" = "ZERO_RESULTS"
    · rw [retryFrom_response_ok url params env m fuel a k data henv h1]
      exact ⟨[], rfl⟩
    · push_neg at h1
      by_cases h2 : data.status.getD "UNKNOWN" = "OVER_QUERY_LIMIT"
      · rw [retryFrom_response_oql url params env m fuel a k data henv h2]
        exact ⟨_, rfl⟩
      · by_cases h3 : data.status.getD "UNKNOWN" = "REQUEST_DENIED"
        · rw [retryFrom_response_denied url params env m fuel a k data henv h3]
          exact ⟨[], rfl⟩
        · by_cases h4 : data.status.getD "UNKNOWN" = "INVALID_REQUEST"
          · rw [retryFrom_response_invalid url params env m fuel a k data henv h4]
            exact ⟨[], rfl⟩
          · rw [retryFrom_response_other url params env m fuel a k data henv h1.1 h1.2 h2 h3 h4]
            exact ⟨[], rfl⟩
  | timeout =>
    by_cases ha : a + 1 < m
    · rw [retryFrom_timeout_mid url params env m fuel a k henv ha]; exact ⟨_, rfl⟩
    · rw [retryFrom_timeout_last url params env m fuel a k henv ha]; exact ⟨[], rfl⟩
  | netError s =>
    by_cases ha : a + 1 < m
    · rw [retryFrom_netError_mid url params env m fuel a k s henv ha]; exact ⟨_, rfl⟩
    · rw [retryFrom_netError_last url params env m fuel a k s henv ha]; exact ⟨[], rfl⟩

theorem retryFrom_all_oql (url : String) (params : Params) (env : Nat → TransportOutcome)
    (m : Nat) : ∀ fuel a k,
    (∀ i, i < fuel → ∃ data, env (k + i) = TransportOutcome.response data ∧
        data.status.getD "UNKNOWN" = "OVER_QUERY_LIMIT") →
    (retryFrom url params env m fuel a k).1 = Except.error ReqError.maxRetriesExceeded := by
  intro fuel
  induction fuel with
  | zero => intro a k _; rfl
  | succ f ih =>
    intro a k h
    obtain ⟨data, henv, hst⟩ := h 0 (by omega)
    rw [Nat.add_zero] at henv
    rw [retryFrom_response_oql url params env m f a k data henv hst]
    exact ih (a + 1) (k + 1) (fun i hi => by
      have hh := h (i + 1) (by omega)
      rwa [show k + (i + 1) = k + 1 + i by omega] at hh)

theorem retryFrom_all_timeout (url : String) (params : Params) (env : Nat → TransportOutcome)
    (m : Nat) : ∀ fuel a k, a + fuel = m → 1 ≤ fuel →
    (∀ i, i < fuel → env (k + i) = TransportOutcome.timeout) →
    (retryFrom url params env m fuel a k).1 = Except.error ReqError.timedOut := by
  intro fuel
  induction fuel with
  | zero => intro a k _ h1 _; omega
  | succ f ih =>
    intro a k hinv _ h
    have henv : env k = TransportOutcome.timeout := by
      have hh := h 0 (by omega); rwa [Nat.add_zero] at hh
    by_cases hf : f = 0
    · subst hf
      rw [retryFrom_timeout_last url params env m 0 a k henv (by omega)]
    · rw [retryFrom_timeout_mid url params env m f a k henv (by omega)]
      exact ih (a + 1) (k + 1) (by omega) (by omega) (fun i hi => by
        have hh := h (i + 1) (by omega)
        rwa [show k + (i + 1) = k + 1 + i by omega] at hh)

theorem retryFrom_all_netError (url : String) (params : Params) (env : Nat → TransportOutcome)
    (m : Nat) (msg : Nat → String) : ∀ fuel a k, a + fuel = m → 1 ≤ fuel →
    (∀ i, i < fuel → env (k + i) = TransportOutcome.netError (msg (k + i))) →
    (retryFrom url params env m fuel a k).1 =
      Except.error (ReqError.networkError (msg (k + fuel - 1))) := by
  intro fuel
  induction fuel with
  | zero => intro a k _ h1 _; omega
  | succ f ih =>
    intro a k hinv _ h
    have henv : env k = TransportOutcome.netError (msg k) := by
      have hh := h 0 (by omega); rwa [Nat.add_zero] at hh
    by_cases hf : f = 0
    · subst hf
      rw [retryFrom_netError_last url params env m 0 a k (msg k) henv (by omega)]
      simp
    · rw [retryFrom_netError_mid url params env m f a k (msg k) henv (by omega)]
      have := ih (a + 1) (k + 1) (by omega) (by omega) (fun i hi => by
        have hh := h (i + 1) (by omega)
        rwa [show k + (i + 1) = k + 1 + i by omega] at hh)
      rw [this]
      have harith : k + 1 + f - 1 = k + (f + 1) - 1 := by omega
      rw [harith]

theorem filter_place_eq_true (d : PlaceDetails) (m : Int) :
    filter_place d m = true ↔
      (m ≤ d.user_ratings_total.getD 0 ∧
        (d.website.getD "" = "" ∨
          strContains (lowerStr (d.website.getD "")) "facebook.com" = true)) := by
  unfold filter_place
  dsimp only
  split_ifs with h1 h2 h3
  · simp only [Bool.false_eq_true, false_iff]
    rintro ⟨hle, _⟩
    omega
  · simp only [true_iff]
    exact ⟨by omega, Or.inl h2⟩
  · simp only [true_iff]
    exact ⟨by omega, Or.inr h3⟩
  · simp only [Bool.false_eq_true, false_iff]
    rintro ⟨_, h | h⟩
    · exact h2 h
    · exact h3 h

/-- C1: for every detail record and every integer minReviews at least 0,
the filter accepts the record iff its review count reaches minReviews and
its website is absent or empty or contains the substring facebook.com
case-insensitively; together with the five truth-table rows at
minReviews = 10. -/
theorem c1_filter_predicate :
    (∀ pd m, (0 : Int) ≤ m →
      (filter_place pd m = true ↔
        (m ≤ pd.user_ratings_total.getD 0 ∧
          (pd.website.getD "" = "" ∨
            strContains (lowerStr (pd.website.getD "")) "facebook.com" = true)))) ∧
    filter_place (detailRec 5 (some "")) 10 = false ∧
    filter_place (detailRec 15 (some "")) 10 = true ∧
    filter_place (detailRec 15 (some "http://FACEBOOK.com/x")) 10 = true ∧
    filter_place (detailRec 15 (some "http://example.com")) 10 = false ∧
    filter_place (detailRec 15 none) 10 = true :=
  ⟨fun pd m _ => filter_place_eq_true pd m,
   by decide, by decide, by decide, by decide, by decide⟩

/-- Witness for C1 at the case of 15 reviews and an uppercase facebook
website, with minReviews = 10. -/
theorem c1_filter_predicate_witness :
    (0 : Int) ≤ 10 ∧
    (filter_place (detailRec 15 (some "http://FACEBOOK.com/x")) 10 = true ↔
      (10 ≤ (detailRec 15 (some "http://FACEBOOK.com/x")).user_ratings_total.getD 0 ∧
        ((detailRec 15 (some "http://FACEBOOK.com/x")).website.getD "" = "" ∨
          strContains (lowerStr ((detailRec 15 (some "http://FACEBOOK.com/x")).website.getD ""))
            "facebook.com" = true))) :=
  ⟨by decide, c1_filter_predicate.1 (detailRec 15 (some "http://FACEBOOK.com/x")) 10 (by decide)⟩

/-- C2: the executor issues at most max_retries remote calls, and its trace
follows the deterministic backoff discipline: whenever one attempt is
followed by another, exactly one sleep of BACKOFF_FACTOR ^ attempt seconds
separates them, the attempt index counted from zero; BACKOFF_FACTOR is 2
and the delay carries no jitter, being a function of the attempt index. -/
theorem c2_backoff (url : String) (params : Params) (env : Nat → TransportOutcome)
    (k max_retries : Nat) :
    callCount (make_request_with_retry url params env k max_retries).2.2 ≤ max_retries ∧
    retryTraceOK 0 (make_request_with_retry url params env k max_retries).2.2 = true ∧
    BACKOFF_FACTOR = 2 :=
  ⟨(retryFrom_trace_bound url params env max_retries max_retries 0 k).1,
   (retryFrom_trace_bound url params env max_retries max_retries 0 k).2, rfl⟩

/-- C3: the executor classifies outcomes per the taxonomy and never retries
a terminal classification: REQUEST_DENIED, INVALID_REQUEST and unrecognized
statuses return immediately after one call with kinds Denied,
InvalidRequest and UnknownApiError; timeouts on every attempt exhaust the
budget and yield kind Timeout; network faults on every attempt yield kind
NetworkError carrying the last fault description; OVER_QUERY_LIMIT on
every attempt yields the max-retries-exceeded error of kind
UnknownApiError; and a timeout with budget remaining is retried. -/
theorem c3_classification (url : String) (params : Params) (env : Nat → TransportOutcome)
    (k m : Nat) (hm : 1 ≤ m) :
    (∀ data, env k = TransportOutcome.response data →
      data.status.getD "UNKNOWN" = "REQUEST_DENIED" →
      make_request_with_retry url params env k m =
        (Except.error (ReqError.requestDenied (data.error_message.getD "Check API key")),
          k + 1, [Event.call url params]) ∧
      (ReqError.requestDenied (data.error_message.getD "Check API key")).kind =
        ErrKind.denied) ∧
    (∀ data, env k = TransportOutcome.response data →
      data.status.getD "UNKNOWN" = "INVALID_REQUEST" →
      make_request_with_retry url params env k m =
        (Except.error (ReqError.invalidRequest (data.error_message.getD "Check parameters")),
          k + 1, [Event.call url params]) ∧
      (ReqError.invalidRequest (data.error_message.getD "Check parameters")).kind =
        ErrKind.invalidRequest) ∧
    (∀ data, env k = TransportOutcome.response data →
      data.status.getD "UNKNOWN" ≠ "OK" → data.status.getD "UNKNOWN" ≠ "ZERO_RESULTS" →
      data.status.getD "UNKNOWN" ≠ "OVER_QUERY_LIMIT" →
      data.status.getD "UNKNOWN" ≠ "REQUEST_DENIED" →
      data.status.getD "UNKNOWN" ≠ "INVALID_REQUEST" →
      make_request_with_retry url params env k m =
        (Except.error (ReqError.apiError (data.status.getD "UNKNOWN")),
          k + 1, [Event.call url params]) ∧
      (ReqError.apiError (data.status.getD "UNKNOWN")).kind = ErrKind.unknownApiError) ∧
    ((∀ i, i < m → env (k + i) = TransportOutcome.timeout) →
      (make_request_with_retry url params env k m).1 = Except.error ReqError.timedOut ∧
      ReqError.timedOut.kind = ErrKind.timeout) ∧
    (∀ msg : Nat → String,
      (∀ i, i < m → env (k + i) = TransportOutcome.netError (msg (k + i))) →
      (make_request_with_retry url params env k m).1 =
        Except.error (ReqError.networkError (msg (k + m - 1))) ∧
      (ReqError.networkError (msg (k + m - 1))).kind = ErrKind.networkError) ∧
    ((∀ i, i < m → ∃ data, env (k + i) = TransportOutcome.response data ∧
        data.status.getD "UNKNOWN" = "OVER_QUERY_LIMIT") →
      (make_request_with_retry url params env k m).1 =
        Except.error ReqError.maxRetriesExceeded ∧
      ReqError.maxRetriesExceeded.kind = ErrKind.unknownApiError) ∧
    (2 ≤ m → env k = TransportOutcome.timeout →
      2 ≤ callCount (make_request_with_retry url params env k m).2.2) := by
  refine ⟨?_, ?_, ?_, ?_, ?_, ?_, ?_⟩
  · intro data henv hst
    obtain ⟨n, rfl⟩ : ∃ n, m = n + 1 := ⟨m - 1, by omega⟩
    exact ⟨retryFrom_response_denied url params env (n + 1) n 0 k data henv hst, rfl⟩
  · intro data henv hst
    obtain ⟨n, rfl⟩ : ∃ n, m = n + 1 := ⟨m - 1, by omega⟩
    exact ⟨retryFrom_response_invalid url params env (n + 1) n 0 k data henv hst, rfl⟩
  · intro data henv h1 h2 h3 h4 h5
    obtain ⟨n, rfl⟩ : ∃ n, m = n + 1 := ⟨m - 1, by omega⟩
    exact ⟨retryFrom_response_other url params env (n + 1) n 0 k data henv h1 h2 h3 h4 h5, rfl⟩
  · intro h
    exact ⟨retryFrom_all_timeout url params env m m 0 k (by omega) hm h, rfl⟩
  · intro msg h
    exact ⟨retryFrom_all_netError url params env m msg m 0 k (by omega) hm h, rfl⟩
  · intro h
    exact ⟨retryFrom_all_oql url params env m m 0 k h, rfl⟩
  · intro hm2 henv
    obtain ⟨n, rfl⟩ : ∃ n, m = n + 2 := ⟨m - 2, by omega⟩
    show 2 ≤ callCount (retryFrom url params env (n + 2) (n + 2) 0 k).2.2
    rw [retryFrom_timeout_mid url params env (n + 2) (n + 1) 0 k henv (by omega)]
    simp only [callCount_call, callCount_sleep]
    obtain ⟨rest, hrest⟩ := retryFrom_trace_head url params env (n + 2) n 1 (k + 1)
    rw [hrest, callCount_call]
    omega

/-- Witness for C3: three timeouts in a row with a budget of three yield
the timed-out error. -/
theorem c3_classification_witness :
    1 ≤ 3 ∧
    ((make_request_with_retry "u" [] (fun _ => TransportOutcome.timeout) 0 3).1 =
      Except.error ReqError.timedOut ∧
     ReqError.timedOut.kind = ErrKind.timeout) :=
  ⟨by decide,
   (c3_classification "u" [] (fun _ => TransportOutcome.timeout) 0 3 (by decide)).2.2.2.1
     (fun i _ => rfl)⟩

theorem mrr_page_ok (params : Params) (env : Nat → TransportOutcome) (k : Nat) (p : Page)
    (h : env k = TransportOutcome.response (pageData p)) :
    make_request_with_retry NEARBY_SEARCH_URL params env k MAX_RETRIES =
      (Except.ok (pageData p), k + 1, [Event.call NEARBY_SEARCH_URL params]) :=
  retryFrom_response_ok NEARBY_SEARCH_URL params env MAX_RETRIES 2 0 k (pageData p) h
    (Or.inl rfl)

theorem callCount_specPagedTrace : ∀ (pages : List Page) (params : Params),
    callCount (specPagedTrace params pages) = pages.length := by
  intro pages
  induction pages with
  | nil => intro params; rfl
  | cons p rest ih =>
    intro params
    cases rest with
    | nil => simp [specPagedTrace, callCount, isCall, List.filter]
    | cons q rest2 =>
      simp only [specPagedTrace, callCount_call, callCount_sleep, ih, List.length_cons]

theorem nearbyLoop_pages (env : Nat → TransportOutcome) :
    ∀ (pages : List Page) (params : Params) (k : Nat) (acc : List PlaceEntry) (fuel : Nat),
    pages.length ≤ fuel → pagesWF pages = true →
    (∀ i, i < pages.length →
      env (k + i) = TransportOutcome.response (pageData (pages.getD i defaultPage))) →
    nearbyLoop env fuel params k acc =
      some (Except.ok (acc ++ (pages.map Page.results).flatten),
        k + pages.length, specPagedTrace params pages) := by
  intro pages
  induction pages with
  | nil =>
    intro params k acc fuel _ hwf _
    simp [pagesWF] at hwf
  | cons p rest ih =>
    intro params k acc fuel hfuel hwf henv
    obtain ⟨f, rfl⟩ : ∃ f, fuel = f + 1 := ⟨fuel - 1, by simp at hfuel; omega⟩
    have henv0 : env k = TransportOutcome.response (pageData p) := by
      have hh := henv 0 (by simp)
      simpa using hh
    cases rest with
    | nil =>
      have htok : tokenStr p = "" := by simpa [pagesWF] using hwf
      simp only [nearbyLoop, mrr_page_ok params env k p henv0]
      rw [show (pageData p).results.getD [] = p.results from rfl,
        show (pageData p).next_page_token.getD "" = tokenStr p from rfl,
        if_pos htok]
      simp [specPagedTrace]
    | cons q rest2 =>
      rw [show pagesWF (p :: q :: rest2) =
        (decide (tokenStr p ≠ "") && pagesWF (q :: rest2)) from rfl] at hwf
      rw [Bool.and_eq_true, decide_eq_true_eq] at hwf
      have henv2 : ∀ i, i < (q :: rest2).length →
          env (k + 1 + i) = TransportOutcome.response
            (pageData ((q :: rest2).getD i defaultPage)) := by
        intro i hi
        have hh := henv (i + 1) (by simp at hi ⊢; omega)
        rw [show k + (i + 1) = k + 1 + i by omega] at hh
        simpa [List.getD] using hh
      have ihq := ih (pageTokenParams (tokenStr p)) (k + 1) (acc ++ p.results) f
        (by simp at hfuel ⊢; omega) hwf.2 henv2
      simp only [nearbyLoop, mrr_page_ok params env k p henv0]
      rw [show (pageData p).results.getD [] = p.results from rfl,
        show (pageData p).next_page_token.getD "" = tokenStr p from rfl,
        if_neg hwf.1, ihq]
      simp only [Option.some.injEq, Prod.mk.injEq, specPagedTrace, List.map_cons,
        List.flatten_cons, List.length_cons, List.cons_append, List.nil_append,
        List.singleton_append]
      refine ⟨by rw [List.append_assoc], by omega, trivial⟩

/-- C4: over a well-formed sequence of successful pages the walker returns
the concatenation of the page results in discovery order, issues one
remote call per page (hence exactly 3 calls for a 3-page sequence), puts
the mandatory 2.0-second token delay plus the 0.1-second courtesy delay
between consecutive calls, issues every call after the first with only the
credential and the pagetoken, and stops at the first page without a token,
as captured by specPagedTrace. -/
theorem c4_pagination (env : Nat → TransportOutcome) (query : String) (lat lng : ℚ)
    (radius_meters : Int) (k fuel : Nat) (pages : List Page)
    (hfuel : pages.length ≤ fuel) (hwf : pagesWF pages = true)
    (henv : ∀ i, i < pages.length →
      env (k + i) = TransportOutcome.response (pageData (pages.getD i defaultPage))) :
    nearby_search query lat lng radius_meters env k fuel =
      some (Except.ok ((pages.map Page.results).flatten), k + pages.length,
        specPagedTrace (initialSearchParams query lat lng radius_meters) pages) ∧
    callCount (specPagedTrace (initialSearchParams query lat lng radius_meters) pages) =
      pages.length := by
  constructor
  · have hh := nearbyLoop_pages env pages (initialSearchParams query lat lng radius_meters)
      k [] fuel hfuel hwf henv
    simpa [nearby_search] using hh
  · exact callCount_specPagedTrace pages _

/-- Witness for C4: a three-page walk where pages one and two carry tokens
and page three does not. -/
theorem c4_pagination_witness :
    pagesWF pages3 = true ∧
    (nearby_search "bakery" 40 (-74) 5000 env3 0 3 =
      some (Except.ok ((pages3.map Page.results).flatten), 0 + pages3.length,
        specPagedTrace (initialSearchParams "bakery" 40 (-74) 5000) pages3) ∧
     callCount (specPagedTrace (initialSearchParams "bakery" 40 (-74) 5000) pages3) =
       pages3.length) :=
  ⟨by decide,
   c4_pagination env3 "bakery" 40 (-74) 5000 0 3 pages3 (by decide) (by decide) (by decide)⟩

theorem nearbyLoop_trace_head (env : Nat → TransportOutcome) (fuel : Nat) (params : Params)
    (k : Nat) (acc : List PlaceEntry)
    (res : Except ReqError (List PlaceEntry) × Nat × List Event)
    (h : nearbyLoop env fuel params k acc = some res) :
    ∃ rest, res.2.2 = Event.call NEARBY_SEARCH_URL params :: rest := by
  cases fuel with
  | zero => simp [nearbyLoop] at h
  | succ f =>
    obtain ⟨rest0, h0⟩ : ∃ rest0,
        (make_request_with_retry NEARBY_SEARCH_URL params env k MAX_RETRIES).2.2 =
          Event.call NEARBY_SEARCH_URL params :: rest0 :=
      retryFrom_trace_head NEARBY_SEARCH_URL params env MAX_RETRIES 2 0 k
    simp only [nearbyLoop] at h
    split at h
    · cases h
      exact ⟨rest0, h0⟩
    · split at h
      · cases h
        exact ⟨rest0, h0⟩
      · split at h
        · cases h
        · cases h
          exact ⟨rest0 ++ Event.sleep PAGE_TOKEN_DELAY :: Event.sleep REQUEST_DELAY ::
            _, by rw [h0]; rfl⟩

/-- C6: a failing page-level call makes the walk return that error with no
partial results, and the handler surfaces it as a server error carrying
the rendered failure message. -/
theorem c6_abort :
    (∀ (env : Nat → TransportOutcome) (fuel : Nat) (params : Params) (k : Nat)
        (acc : List PlaceEntry) e k1 ev,
      make_request_with_retry NEARBY_SEARCH_URL params env k MAX_RETRIES =
        (Except.error e, k1, ev) →
      nearbyLoop env (fuel + 1) params k acc = some (Except.error e, k1, ev)) ∧
    (∀ (body : ReqBody) (env : Nat → TransportOutcome) (fuel : Nat) (lat lng : ℚ)
        (e : ReqError) (k1 : Nat) (ev : List Event),
      trimStr (body.query.getD "") ≠ "" →
      body.lat = some lat → body.lng = some lng →
      nearby_search (trimStr (body.query.getD "")) lat lng
        (min (body.radius_meters.getD 5000) 50000) env 0 fuel =
        some (Except.error e, k1, ev) →
      search body env fuel = some (HttpResponse.serverError e.render, ev)) := by
  constructor
  · intro env fuel params k acc e k1 ev h
    simp only [nearbyLoop, h]
  · intro body env fuel lat lng e k1 ev hq hlat hlng hns
    simp only [search, hlat, hlng, if_neg hq, hns]

/-- Witness for C6: the first page call is denied; the handler returns the
server error carrying the denial message. -/
theorem c6_abort_witness :
    (trimStr (bodyPlain.query.getD "") ≠ "" ∧ bodyPlain.lat = some 0 ∧
     bodyPlain.lng = some 0 ∧
     nearby_search (trimStr (bodyPlain.query.getD "")) 0 0
       (min (bodyPlain.radius_meters.getD 5000) 50000) envDenied 0 1 =
       some (Except.error (ReqError.requestDenied "bad key"), 1,
         [Event.call NEARBY_SEARCH_URL (initialSearchParams "cafe" 0 0 5000)])) ∧
    search bodyPlain envDenied 1 =
      some (HttpResponse.serverError (ReqError.requestDenied "bad key").render,
        [Event.call NEARBY_SEARCH_URL (initialSearchParams "cafe" 0 0 5000)]) :=
  ⟨⟨by decide, by decide, by decide, by decide⟩,
   c6_abort.2 bodyPlain envDenied 1 0 0 (ReqError.requestDenied "bad key") 1
     [Event.call NEARBY_SEARCH_URL (initialSearchParams "cafe" 0 0 5000)]
     (by decide) (by decide) (by decide) (by decide)⟩

theorem enrichLoop_acc (m : Int) (env : Nat → TransportOutcome) :
    ∀ (places : List PlaceEntry) (k : Nat) (acc : List ResultEntry),
    (enrichLoop m env places k acc).1 = acc ++ (enrichLoop m env places k []).1 := by
  intro places
  induction places with
  | nil => intro k acc; simp [enrichLoop]
  | cons place rest ih =>
    intro k acc
    by_cases hid : place.place_id.getD "" = ""
    · simp only [enrichLoop, if_pos hid]
      exact ih k acc
    · simp only [enrichLoop, if_neg hid]
      cases hd : (get_place_details (place.place_id.getD "") env k).1 with
      | error er =>
        dsimp only
        exact ih _ acc
      | ok details =>
        dsimp only
        by_cases hf : filter_place details m = true
        · rw [if_pos hf, if_pos hf]
          rw [ih _ (acc ++ [mkResultEntry (place.place_id.getD "") details]),
            ih _ ([] ++ [mkResultEntry (place.place_id.getD "") details])]
          simp [List.append_assoc]
        · rw [if_neg hf, if_neg hf]
          rw [ih _ acc]

theorem enrichLoop_append (m : Int) (env : Nat → TransportOutcome) :
    ∀ (ps1 ps2 : List PlaceEntry) (k : Nat) (acc : List ResultEntry),
    enrichLoop m env (ps1 ++ ps2) k acc =
      ((enrichLoop m env ps2 (enrichLoop m env ps1 k acc).2.1
          (enrichLoop m env ps1 k acc).1).1,
       (enrichLoop m env ps2 (enrichLoop m env ps1 k acc).2.1
          (enrichLoop m env ps1 k acc).1).2.1,
       (enrichLoop m env ps1 k acc).2.2 ++
         (enrichLoop m env ps2 (enrichLoop m env ps1 k acc).2.1
           (enrichLoop m env ps1 k acc).1).2.2) := by
  intro ps1
  induction ps1 with
  | nil => intro ps2 k acc; simp [enrichLoop]
  | cons place rest ih =>
    intro ps2 k acc
    by_cases hid : place.place_id.getD "" = ""
    · simp only [List.cons_append, enrichLoop, if_pos hid]
      exact ih ps2 k acc
    · simp only [List.cons_append, enrichLoop, if_neg hid]
      cases hd : (get_place_details (place.place_id.getD "") env k).1 with
      | error er =>
        dsimp only
        simp only [List.append_eq]
        rw [ih ps2 _ acc]
        simp [List.append_assoc]
      | ok details =>
        dsimp only
        simp only [List.append_eq]
        by_cases hf : filter_place details m = true
        · rw [if_pos hf]
          rw [ih ps2 _ (acc ++ [mkResultEntry (place.place_id.getD "") details])]
          simp [List.append_assoc]
        · rw [if_neg hf]
          rw [ih ps2 _ acc]
          simp [List.append_assoc]

theorem enrichLoop_mem (m : Int) (env : Nat → TransportOutcome) :
    ∀ (places : List PlaceEntry) (k : Nat) (acc : List ResultEntry) (e : ResultEntry),
    e ∈ (enrichLoop m env places k acc).1 →
    e ∈ acc ∨ ∃ pid d j, pid ≠ "" ∧ (get_place_details pid env j).1 = Except.ok d ∧
      filter_place d m = true ∧ e = mkResultEntry pid d := by
  intro places
  induction places with
  | nil =>
    intro k acc e he
    simp [enrichLoop] at he
    exact Or.inl he
  | cons place rest ih =>
    intro k acc e he
    by_cases hid : place.place_id.getD "" = ""
    · simp only [enrichLoop, if_pos hid] at he
      exact ih _ _ _ he
    · simp only [enrichLoop, if_neg hid] at he
      cases hd : (get_place_details (place.place_id.getD "") env k).1 with
      | error er =>
        rw [hd] at he
        exact ih _ _ _ he
      | ok details =>
        rw [hd] at he
        replace he : e ∈ (enrichLoop m env rest
            (get_place_details (place.place_id.getD "") env k).2.1
            (if filter_place details m = true then
              acc ++ [mkResultEntry (place.place_id.getD "") details]
            else acc)).1 := he
        by_cases hf : filter_place details m = true
        · rw [if_pos hf] at he
          rcases ih _ _ _ he with hacc | hex
          · rcases List.mem_append.mp hacc with h1 | h2
            · exact Or.inl h1
            · right
              refine ⟨place.place_id.getD "", details, k, hid, hd, hf, ?_⟩
              simpa using h2
          · exact Or.inr hex
        · rw [if_neg hf] at he
          exact ih _ _ _ he

/-- C7: every record in the results of a completed handler run passes the
filter with the request's min_reviews (its review count reaches the
threshold and its website is empty or contains facebook.com
case-insensitively); the enrichment pipeline processes references strictly
left to right — output list, cursor and trace compose over concatenation
of the reference list — and only ever appends to its accumulator, so
discovery order is preserved and nothing is deduplicated or reordered. -/
theorem c7_order_and_filter :
    (∀ (body : ReqBody) (env : Nat → TransportOutcome) (fuel : Nat) (rb : RespBody)
        (ev : List Event),
      search body env fuel = some (HttpResponse.ok rb, ev) →
      ∀ e, e ∈ rb.results →
        body.min_reviews.getD 0 ≤ e.reviews ∧
        (e.website = "" ∨ strContains (lowerStr e.website) "facebook.com" = true)) ∧
    (∀ (m : Int) (env : Nat → TransportOutcome) (ps1 ps2 : List PlaceEntry) (k : Nat)
        (acc : List ResultEntry),
      enrichLoop m env (ps1 ++ ps2) k acc =
        ((enrichLoop m env ps2 (enrichLoop m env ps1 k acc).2.1
            (enrichLoop m env ps1 k acc).1).1,
         (enrichLoop m env ps2 (enrichLoop m env ps1 k acc).2.1
            (enrichLoop m env ps1 k acc).1).2.1,
         (enrichLoop m env ps1 k acc).2.2 ++
           (enrichLoop m env ps2 (enrichLoop m env ps1 k acc).2.1
             (enrichLoop m env ps1 k acc).1).2.2)) ∧
    (∀ (m : Int) (env : Nat → TransportOutcome) (places : List PlaceEntry) (k : Nat)
        (acc : List ResultEntry),
      (enrichLoop m env places k acc).1 = acc ++ (enrichLoop m env places k []).1) := by
  refine ⟨?_, enrichLoop_append, enrichLoop_acc⟩
  intro body env fuel rb ev h e he
  simp only [search] at h
  split at h
  · simp at h
  · split at h
    · simp at h
    · simp at h
    · split at h
      · simp at h
      · simp at h
      · split at h
        · simp only [Option.some.injEq, Prod.mk.injEq, HttpResponse.ok.injEq] at h
          obtain ⟨hrb, _⟩ := h
          rw [← hrb] at he
          simp at he
        · simp only [Option.some.injEq, Prod.mk.injEq, HttpResponse.ok.injEq] at h
          obtain ⟨hrb, _⟩ := h
          rw [← hrb] at he
          rcases enrichLoop_mem (body.min_reviews.getD 0) env _ _ _ e he with
            hacc | ⟨pid, d, j, hpid, hok, hf, hmk⟩
          · simp at hacc
          · subst hmk
            have hp := (filter_place_eq_true d (body.min_reviews.getD 0)).mp hf
            exact ⟨hp.1, hp.2⟩

/-- Witness for C7 at the concrete run on bodyC10 and envC10. -/
theorem c7_order_and_filter_witness :
    bodyC10.min_reviews.getD 0 ≤ (mkResultEntry "p2" d2).reviews ∧
    ((mkResultEntry "p2" d2).website = "" ∨
      strContains (lowerStr (mkResultEntry "p2" d2).website) "facebook.com" = true) :=
  c7_order_and_filter.1 bodyC10 envC10 5 rb10 tr10 (by decide) (mkResultEntry "p2" d2)
    (by decide)

/-- C5: a failing detail call is skipped without aborting the batch — the
filtered list is the one computed from the remaining references — and on
the successful path the response carries total_found = number of search
references and filtered_count = length of the filtered list; in the
end-to-end scenario with two references where the first detail call fails
and the second succeeds with 25 reviews and no website under
min_reviews = 20, the response has total_found 2, filtered_count 1 and
only the successful reference p2 appears. -/
theorem c5_enrichment :
    (∀ (m : Int) (env : Nat → TransportOutcome) (place : PlaceEntry)
        (rest : List PlaceEntry) (k : Nat) (acc : List ResultEntry) (er : ReqError),
      place.place_id.getD "" ≠ "" →
      (get_place_details (place.place_id.getD "") env k).1 = Except.error er →
      (enrichLoop m env (place :: rest) k acc).1 =
        (enrichLoop m env rest
          (get_place_details (place.place_id.getD "") env k).2.1 acc).1) ∧
    (∀ (body : ReqBody) (env : Nat → TransportOutcome) (fuel : Nat) (lat lng : ℚ)
        (l : List PlaceEntry) (k : Nat) (ev : List Event),
      trimStr (body.query.getD "") ≠ "" →
      body.lat = some lat → body.lng = some lng →
      nearby_search (trimStr (body.query.getD "")) lat lng
        (min (body.radius_meters.getD 5000) 50000) env 0 fuel =
        some (Except.ok l, k, ev) →
      l ≠ [] →
      search body env fuel = some (HttpResponse.ok
        { results := (enrichLoop (body.min_reviews.getD 0) env l k []).1,
          message := none,
          total_found := some l.length,
          filtered_count := some (enrichLoop (body.min_reviews.getD 0) env l k []).1.length },
        ev ++ (enrichLoop (body.min_reviews.getD 0) env l k []).2.2)) ∧
    respOf (search bodyC5 envC5 5) = some (HttpResponse.ok
      { results := [mkResultEntry "p2" d2], message := none,
        total_found := some 2, filtered_count := some 1 }) ∧
    (mkResultEntry "p2" d2).place_id = "p2" := by
  refine ⟨?_, ?_, by decide, by decide⟩
  · intro m env place rest k acc er hid herr
    simp only [enrichLoop, if_neg hid]
    rw [herr]
  · intro body env fuel lat lng l k ev hq hlat hlng hns hl
    simp only [search, hlat, hlng, if_neg hq, hns, if_neg hl]

/-- Witness for C5: skipping the failing first reference of the end-to-end
scenario leaves the batch processing of the rest unchanged. -/
theorem c5_enrichment_witness :
    (entryP1.place_id.getD "" ≠ "" ∧
     (get_place_details (entryP1.place_id.getD "") envC5 1).1 =
       Except.error (ReqError.invalidRequest "nope")) ∧
    (enrichLoop 20 envC5 [entryP1, entryP2] 1 []).1 =
      (enrichLoop 20 envC5 [entryP2]
        (get_place_details (entryP1.place_id.getD "") envC5 1).2.1 []).1 :=
  ⟨⟨by decide, by decide⟩,
   c5_enrichment.1 20 envC5 entryP1 [entryP2] 1 [] (ReqError.invalidRequest "nope")
     (by decide) (by decide)⟩

/-- C10: a search entry without a place_id is skipped with no courtesy
delay and no detail call — the loop continues on the remaining references
with unchanged cursor, accumulator and trace — yet it still counts toward
total_found: in the concrete run one of the two entries lacks an id, the
response reports total_found 2 while only one details call appears in the
whole trace, and the id-less entry appears nowhere in the results. -/
theorem c10_missing_place_id :
    (∀ (m : Int) (env : Nat → TransportOutcome) (place : PlaceEntry)
        (rest : List PlaceEntry) (k : Nat) (acc : List ResultEntry),
      place.place_id.getD "" = "" →
      enrichLoop m env (place :: rest) k acc = enrichLoop m env rest k acc) ∧
    respOf (search bodyC10 envC10 5) = some (HttpResponse.ok rb10) ∧
    (traceOf (search bodyC10 envC10 5)).map
      (fun t => (t.filter isDetailCall).length) = some 1 ∧
    rb10.total_found = some 2 := by
  refine ⟨?_, by decide, by decide, by decide⟩
  intro m env place rest k acc hid
  simp only [enrichLoop, if_pos hid]

/-- Witness for C10: the id-less entry is skipped with the loop state
unchanged. -/
theorem c10_missing_place_id_witness :
    entryNoId.place_id.getD "" = "" ∧
    enrichLoop 0 envC10 [entryNoId, entryP2] 1 [] = enrichLoop 0 envC10 [entryP2] 1 [] :=
  ⟨by decide, c10_missing_place_id.1 0 envC10 entryNoId [entryP2] 1 [] (by decide)⟩

/-- Counterexample to C8 as stated: with a requested radius of -5 the
first (and only) search call still carries radius -5, not the 0 the
claimed clamp to the range 0..50000 would produce. -/
theorem c8_counterexample :
    traceOf (search bodyNeg envOnePage 1) =
      some [Event.call NEARBY_SEARCH_URL
        [("key", PVal.s GOOGLE_PLACES_API_KEY), ("location", PVal.loc 0 0),
         ("radius", PVal.i (-5)), ("keyword", PVal.s "cafe")]] ∧
    ((-5 : Int) < 0 ∧ (-5 : Int) ≠ 0) := by decide

/-- C8 (amended): before the first search call the requested radius is
clamped only from above to 50000: every completed request sends
min(requested, 50000) in its first call, so 100000 is sent as 50000, while
a negative request such as -5 passes through unchanged. -/
theorem c8_radius_clamp (body : ReqBody) (env : Nat → TransportOutcome) (fuel : Nat)
    (resp : HttpResponse) (tr : List Event) (lat lng : ℚ)
    (hq : trimStr (body.query.getD "") ≠ "")
    (hlat : body.lat = some lat) (hlng : body.lng = some lng)
    (h : search body env fuel = some (resp, tr)) :
    (∃ rest, tr = Event.call NEARBY_SEARCH_URL
      (initialSearchParams (trimStr (body.query.getD "")) lat lng
        (min (body.radius_meters.getD 5000) 50000)) :: rest) ∧
    min (100000 : Int) 50000 = 50000 ∧ min (-5 : Int) 50000 = -5 := by
  refine ⟨?_, by decide, by decide⟩
  simp only [search, hlat, hlng, if_neg hq] at h
  split at h
  · simp at h
  · rename_i e k1 ev1 hsc
    obtain ⟨rest, hr⟩ := nearbyLoop_trace_head env fuel
      (initialSearchParams (trimStr (body.query.getD "")) lat lng
        (min (body.radius_meters.getD 5000) 50000)) 0 [] _ hsc
    simp only [Option.some.injEq, Prod.mk.injEq] at h
    obtain ⟨_, hev⟩ := h
    exact ⟨rest, by rw [← hev]; exact hr⟩
  · rename_i l k1 ev1 hsc
    obtain ⟨rest, hr⟩ := nearbyLoop_trace_head env fuel
      (initialSearchParams (trimStr (body.query.getD "")) lat lng
        (min (body.radius_meters.getD 5000) 50000)) 0 [] _ hsc
    split at h
    · simp only [Option.some.injEq, Prod.mk.injEq] at h
      obtain ⟨_, hev⟩ := h
      exact ⟨rest, by rw [← hev]; exact hr⟩
    · simp only [Option.some.injEq, Prod.mk.injEq] at h
      obtain ⟨_, hev⟩ := h
      refine ⟨rest ++ (enrichLoop (body.min_reviews.getD 0) env l k1 []).2.2, ?_⟩
      rw [← hev]
      dsimp only at hr
      rw [hr]
      rfl

/-- Witness for the amended C8: a requested radius of 100000 is sent as
50000 in the first call. -/
theorem c8_radius_clamp_witness :
    (trimStr (body100k.query.getD "") ≠ "" ∧ body100k.lat = some 0 ∧
     body100k.lng = some 0 ∧
     search body100k envOnePage 1 = some (HttpResponse.ok
       { results := [], message := some "No results found",
         total_found := none, filtered_count := none },
       [Event.call NEARBY_SEARCH_URL (initialSearchParams "cafe" 0 0 50000)])) ∧
    ((∃ rest, [Event.call NEARBY_SEARCH_URL (initialSearchParams "cafe" 0 0 50000)] =
      Event.call NEARBY_SEARCH_URL
        (initialSearchParams (trimStr (body100k.query.getD "")) 0 0
          (min (body100k.radius_meters.getD 5000) 50000)) :: rest) ∧
     min (100000 : Int) 50000 = 50000 ∧ min (-5 : Int) 50000 = -5) :=
  ⟨⟨by decide, by decide, by decide, by decide⟩,
   c8_radius_clamp body100k envOnePage 1 (HttpResponse.ok
       { results := [], message := some "No results found",
         total_found := none, filtered_count := none })
     [Event.call NEARBY_SEARCH_URL (initialSearchParams "cafe" 0 0 50000)] 0 0
     (by decide) (by decide) (by decide) (by decide)⟩

/-- Counterexample to C9 as stated: a completed request whose search phase
yields zero references returns a body carrying results and a message but
neither total_found nor filtered_count. -/
theorem c9_counterexample :
    respOf (search bodyPlain envOnePage 1) = some (HttpResponse.ok
      { results := [], message := some "No results found",
        total_found := none, filtered_count := none }) ∧
    ((⟨[], some "No results found", none, none⟩ : RespBody).total_found = none ∧
     (⟨[], some "No results found", none, none⟩ : RespBody).filtered_count = none) := by
  decide

/-- C9 (amended): a blank or missing query, or a missing coordinate, is
rejected with a client error before any remote call (the trace is empty);
a completed request whose search phase yields at least one reference
returns results, total_found and filtered_count; one whose search phase
yields zero references returns empty results and a message, without the
two counts. -/
theorem c9_handler_responses :
    (∀ (body : ReqBody) (env : Nat → TransportOutcome) (fuel : Nat),
      trimStr (body.query.getD "") = "" →
      search body env fuel =
        some (HttpResponse.clientError "Business query is required", [])) ∧
    (∀ (body : ReqBody) (env : Nat → TransportOutcome) (fuel : Nat),
      trimStr (body.query.getD "") ≠ "" →
      (body.lat = none ∨ body.lng = none) →
      search body env fuel =
        some (HttpResponse.clientError "Location coordinates are required", [])) ∧
    (∀ (body : ReqBody) (env : Nat → TransportOutcome) (fuel : Nat) (lat lng : ℚ)
        (l : List PlaceEntry) (k : Nat) (ev : List Event),
      trimStr (body.query.getD "") ≠ "" →
      body.lat = some lat → body.lng = some lng →
      nearby_search (trimStr (body.query.getD "")) lat lng
        (min (body.radius_meters.getD 5000) 50000) env 0 fuel =
        some (Except.ok l, k, ev) →
      l ≠ [] →
      ∃ rb ev2, search body env fuel = some (HttpResponse.ok rb, ev2) ∧
        rb.total_found = some l.length ∧ rb.filtered_count = some rb.results.length) ∧
    (∀ (body : ReqBody) (env : Nat → TransportOutcome) (fuel : Nat) (lat lng : ℚ)
        (k : Nat) (ev : List Event),
      trimStr (body.query.getD "") ≠ "" →
      body.lat = some lat → body.lng = some lng →
      nearby_search (trimStr (body.query.getD "")) lat lng
        (min (body.radius_meters.getD 5000) 50000) env 0 fuel =
        some (Except.ok [], k, ev) →
      search body env fuel = some (HttpResponse.ok
        { results := [], message := some "No results found",
          total_found := none, filtered_count := none }, ev)) := by
  refine ⟨?_, ?_, ?_, ?_⟩
  · intro body env fuel hq
    simp only [search, if_pos hq]
  · intro body env fuel hq hcoord
    rcases hcoord with hlat | hlng
    · simp only [search, if_neg hq, hlat]
    · cases hlat2 : body.lat with
      | none => simp only [search, if_neg hq, hlat2]
      | some la => simp only [search, if_neg hq, hlat2, hlng]
  · intro body env fuel lat lng l k ev hq hlat hlng hns hl
    have hs : search body env fuel = some (HttpResponse.ok
        { results := (enrichLoop (body.min_reviews.getD 0) env l k []).1,
          message := none,
          total_found := some l.length,
          filtered_count := some (enrichLoop (body.min_reviews.getD 0) env l k []).1.length },
        ev ++ (enrichLoop (body.min_reviews.getD 0) env l k []).2.2) := by
      simp only [search, hlat, hlng, if_neg hq, hns, if_neg hl]
    exact ⟨_, _, hs, rfl, rfl⟩
  · intro body env fuel lat lng k ev hq hlat hlng hns
    simp only [search, hlat, hlng, if_neg hq, hns, if_pos rfl]
    rfl

/-- Witness for the amended C9: a request without a query is rejected with
the client error and an empty trace. -/
theorem c9_handler_responses_witness :
    trimStr (bodyNoQuery.query.getD "") = "" ∧
    search bodyNoQuery envOnePage 3 =
      some (HttpResponse.clientError "Business query is required", []) :=
  ⟨by decide, c9_handler_responses.1 bodyNoQuery envOnePage 3 (by decide)⟩

end BizFinder
